import Mathlib

/-!
Verification of the response-synthesis engine of an OpenAI API mock server.

The development shallowly embeds the three generators of the engine
(`src/generators/embeddings.rs`, `src/generators/completions.rs`,
`src/generators/chat_completions.rs`) together with the request model
(`src/models/requests.rs`).  Conventions used throughout:

* Rust `u64`/`u32` arithmetic is embedded as `Nat` with explicit `% 2 ^ 64`
  (respectively `% 2 ^ 31`) wherever the source wraps.
* Rust `f64` arithmetic is idealised: the exact decimal literals of the source
  (`0.5`, `2.0`, `0.3`, `0.7`) become exact rationals, and the final
  normalisation step (square root and division) is carried out over `ℝ`.
* Rust `String` is embedded as Lean `String`; `str::len` (UTF-8 bytes) is
  embedded as the character count, which agrees with the byte count on the
  ASCII text the generators produce and the claims exercise.  Case folding
  and whitespace classification likewise use the ASCII fragment on which the
  Rust and Lean notions agree.
* Wall-clock reads (`chrono::Utc::now().timestamp()/day()/hour()`) are made
  explicit as a `Clock` argument; UUID generation is made explicit as a
  call-identifier argument.  Everything else is pure in the source already.
-/

namespace OpenAIMock

/-! ### String helpers mirroring the Rust `str` operations used by the engine -/

/-- Character length of a string (Rust `str::len`; see header note). -/
def strLen (s : String) : Nat := s.data.length

/-- Substring test on character lists: some suffix of `hay` starts with `needle`. -/
def listContains (hay needle : List Char) : Bool :=
  hay.tails.any (fun t => needle.isPrefixOf t)

/-- Rust `str::contains` (substring containment). -/
def strContains (hay needle : String) : Bool :=
  listContains hay.data needle.data

/-- Rust `str::to_lowercase` (ASCII fragment). -/
def lowerStr (s : String) : String :=
  ⟨s.data.map Char.toLower⟩

/-- Helper for `word_count`: counts maximal non-whitespace runs; the `Bool`
records whether the previous character was inside a word. -/
def countWords : List Char → Bool → Nat
  | [], _ => 0
  | c :: rest, inWord =>
    if c.isWhitespace then countWords rest false
    else (if inWord then 0 else 1) + countWords rest true

/-- Rust `str::split_whitespace().count()`. -/
def word_count (s : String) : Nat := countWords s.data false

/-! ### Embedding generator — integer core (`generators/embeddings.rs`) -/

/-- Modulus of wrapping `u64` arithmetic. -/
def u64Size : Nat := 2 ^ 64

/-- The LCG modulus `1u64 << 31` of the source. -/
def u31Size : Nat := 2 ^ 31

/-- `EmbeddingGenerator::hash_string`: djb2-style hash over the UTF-8 bytes of
the input (embedded as a list of byte values), with wrapping `u64` arithmetic:
`hash = hash.wrapping_mul(33).wrapping_add(byte)` starting from `5381`. -/
def hash_string (input : List Nat) : Nat :=
  input.foldl (fun hash byte => (hash * 33 % u64Size + byte) % u64Size) 5381

/-- One iteration of the loop body of
`EmbeddingGenerator::generate_embedding_vector`:
`rng_state = (rng_state.wrapping_mul(1103515245).wrapping_add(12345).wrapping_add(i)) % (1u64 << 31)`. -/
def lcg_step (state i : Nat) : Nat :=
  ((state * 1103515245 % u64Size + 12345) % u64Size + i) % u64Size % u31Size

/-- The sequence of `rng_state` values: `rng_state seed i` is the state after
`i` loop iterations, starting from the seed. -/
def rng_state (seed : Nat) : Nat → Nat
  | 0 => seed
  | i + 1 => lcg_step (rng_state seed i) i

/-- The smoothed component pushed for a given (post-update) state:
`raw = state / 2^31`, `normalized = (raw - 0.5) * 2.0`,
`smoothed = normalized * (0.3 + 0.7 * (1.0 - raw.abs()))`.
The `f64` literals are idealised as exact rationals. -/
def smooth_component (state : Nat) : ℚ :=
  let raw : ℚ := (state : ℚ) / (u31Size : ℚ)
  let normalized : ℚ := (raw - 1/2) * 2
  normalized * (3/10 + 7/10 * (1 - |raw|))

/-- The vector built by the `for i in 0..dimensions` loop of
`generate_embedding_vector`, before normalisation. -/
def raw_vector (seed dims : Nat) : List ℚ :=
  (List.range dims).map (fun i => smooth_component (rng_state seed (i + 1)))

/-- Sum of squares of a vector (the radicand inside
`EmbeddingGenerator::normalize_vector`). -/
def sumSq (v : List ℝ) : ℝ :=
  (v.map (fun x => x * x)).sum

/-- The `magnitude` local of `EmbeddingGenerator::normalize_vector`. -/
noncomputable def magnitude (v : List ℝ) : ℝ :=
  Real.sqrt (sumSq v)

/-- `EmbeddingGenerator::normalize_vector`: divide every component by the
magnitude, skipping the division when the magnitude is not positive. -/
noncomputable def normalize_vector (v : List ℝ) : List ℝ :=
  if 0 < magnitude v then v.map (fun x => x / magnitude v) else v

/-- The vector of `generate_embedding_vector` before the normalisation call,
injected into `ℝ`. -/
noncomputable def pre_vector (input : List Nat) (dims : Nat) : List ℝ :=
  (raw_vector (hash_string input) dims).map (fun q => (q : ℝ))

/-- `EmbeddingGenerator::generate_embedding_vector`. -/
noncomputable def generate_embedding_vector (input : List Nat) (dims : Nat) : List ℝ :=
  normalize_vector (pre_vector input dims)

/-! ### Embedding request model and dimension table -/

/-- `models/requests.rs::EmbeddingInput`. -/
inductive EmbeddingInput
  | str (s : String)
  | strArray (a : List String)
  | intArray (a : List Int)
  | intArrayArray (a : List (List Int))

/-- `models/requests.rs::CreateEmbeddingRequest` (`u32` embedded as `Nat`). -/
structure CreateEmbeddingRequest where
  model : String
  input : EmbeddingInput
  encoding_format : Option String
  dimensions : Option Nat
  user : Option String

/-- The `match request.model.as_str()` table in
`EmbeddingGenerator::determine_dimensions`; a Rust `match` on string literals
tests the patterns in order, rendered here as an `if`-chain. -/
def default_dimensions (model : String) : Nat :=
  if model = "text-embedding-ada-002" then 1536
  else if model = "text-embedding-3-small" then 1536
  else if model = "text-embedding-3-large" then 3072
  else if model = "text-similarity-ada-001" then 1024
  else if model = "text-similarity-babbage-001" then 2048
  else if model = "text-similarity-curie-001" then 4096
  else if model = "text-similarity-davinci-001" then 12288
  else 1536

/-- `EmbeddingGenerator::determine_dimensions`: an explicit `dimensions`
field wins, otherwise the model-name table applies. -/
def determine_dimensions (request : CreateEmbeddingRequest) : Nat :=
  match request.dimensions with
  | some dims => dims
  | none => default_dimensions request.model

/-- `EmbeddingGenerator::estimate_tokens`:
`base = (len / 4).max(1)`, then `((base + word_count) as f64 * 0.8) as u32`.
The `f64` multiply-then-truncate equals `⌊8 n / 10⌋` exactly for every value
reachable here (`n < 2 ^ 50`). -/
def embedding_estimate_tokens (text : String) : Nat :=
  (Nat.max (strLen text / 4) 1 + word_count text) * 8 / 10

/-! ### Completion generator (`generators/completions.rs`) -/

/-- The wall-clock values read through `chrono::Utc::now()` by the canned-text
pickers, made explicit: unix `timestamp()`, `day()` of month, `hour()` of day. -/
structure Clock where
  timestamp : Nat
  day : Nat
  hour : Nat

/-- `models/requests.rs::PromptInput`. -/
inductive PromptInput
  | str (s : String)
  | arr (a : List String)
deriving DecidableEq

/-- `models/requests.rs::StopSequences`. -/
inductive StopSequences
  | str (s : String)
  | arr (a : List String)
deriving DecidableEq

/-- `models/requests.rs::CreateCompletionRequest`.  The `f32` sampling fields
(`temperature`, `top_p`, `presence_penalty`, `frequency_penalty`,
`logit_bias`) and `stream` are never read by the generator and are omitted. -/
structure CreateCompletionRequest where
  model : String
  prompt : PromptInput
  suffix : Option String
  max_tokens : Option Nat
  n : Option Nat
  logprobs : Option Nat
  echo : Option Bool
  stop : Option StopSequences
  best_of : Option Nat
  user : Option String

/-- `CompletionGenerator::simple_hash`: sum of the code points of the input. -/
def simple_hash (input : String) : Nat :=
  (input.data.map Char.toNat).sum

/-- Index of the last space character of a list, if any
(Rust `truncated.rfind(' ')`; on ASCII text byte and character indices agree). -/
def rfindSpace : List Char → Option Nat
  | [] => none
  | c :: rest =>
    match rfindSpace rest with
    | some j => some (j + 1)
    | none => if c = ' ' then some 0 else none

/-- `CompletionGenerator::truncate_to_tokens`: cap at `max_tokens * 4`
characters, preferring to cut at the last space of the truncated text. -/
def truncate_to_tokens (text : String) (max_tokens : Nat) : String :=
  let max_chars := max_tokens * 4
  if strLen text ≤ max_chars then text
  else
    let truncated := text.data.take max_chars
    match rfindSpace truncated with
    | some last_space => ⟨truncated.take last_space⟩
    | none => ⟨truncated⟩

/-- The pool inside `CompletionGenerator::get_greeting_completion`. -/
def greeting_completions : List String :=
  [" Hello! How can I help you today?",
   " Hi there! Nice to meet you.",
   " Hello! I\x27m here to assist you.",
   " Hi! What would you like to know?",
   " Hello! Feel free to ask me anything."]

/-- The pool inside `CompletionGenerator::get_creative_completion`. -/
def creative_completions : List String :=
  [" Once upon a time, in a land far away, there lived a curious explorer who discovered amazing secrets hidden in ancient ruins.",
   " The story begins on a rainy Tuesday morning when everything seemed ordinary, but little did anyone know that extraordinary events were about to unfold.",
   " In the bustling city, among the towering skyscrapers and busy streets, a small coffee shop held the key to an incredible adventure.",
   " The old library contained more than just books - it held mysteries that had been waiting centuries to be uncovered by the right person."]

/-- The pool inside `CompletionGenerator::get_explanatory_completion`. -/
def explanatory_completions : List String :=
  [" This is a complex topic that involves multiple interconnected concepts. Let me break it down into simpler parts for better understanding.",
   " The fundamental principle behind this is based on well-established scientific theories that have been validated through extensive research.",
   " To understand this properly, we need to consider the historical context and how various factors have influenced its development over time.",
   " This concept can be explained through a practical example that demonstrates its real-world applications and benefits."]

/-- The pool inside `CompletionGenerator::get_code_completion`. -/
def code_completions : List String :=
  ["\n```rust\nfn example() \x7b\n    println!(\"Hello, world!\");\n\x7d\n```",
   "\n```python\ndef example():\n    print(\"Hello, world!\")\n    return True\n```",
   "\n```javascript\nfunction example() \x7b\n    console.log(\"Hello, world!\");\n    return true;\n\x7d\n```",
   "\n```java\npublic void example() \x7b\n    System.out.println(\"Hello, world!\");\n\x7d\n```"]

/-- The pool inside `CompletionGenerator::get_general_completion`. -/
def general_completions : List String :=
  [" This is an interesting topic that deserves careful consideration and thoughtful analysis.",
   " There are several important factors to consider when approaching this subject matter.",
   " The key to understanding this lies in examining the underlying principles and their practical applications.",
   " This represents a fascinating area of study with many opportunities for further exploration.",
   " The complexity of this subject requires a multifaceted approach to fully appreciate its nuances."]

/-- `CompletionGenerator::get_greeting_completion`: selection by prompt length. -/
def get_greeting_completion (prompt : String) (max_tokens : Nat) : String :=
  truncate_to_tokens
    (greeting_completions.getD (strLen prompt % greeting_completions.length) "") max_tokens

/-- `CompletionGenerator::get_creative_completion`: selection by the current
unix timestamp (the prompt argument is ignored by the source). -/
def get_creative_completion (clock : Clock) (max_tokens : Nat) : String :=
  truncate_to_tokens
    (creative_completions.getD (clock.timestamp % creative_completions.length) "") max_tokens

/-- `CompletionGenerator::get_explanatory_completion`: selection by the
current day of month. -/
def get_explanatory_completion (clock : Clock) (max_tokens : Nat) : String :=
  truncate_to_tokens
    (explanatory_completions.getD (clock.day % explanatory_completions.length) "") max_tokens

/-- `CompletionGenerator::get_code_completion`: selection by the current hour. -/
def get_code_completion (clock : Clock) (max_tokens : Nat) : String :=
  truncate_to_tokens
    (code_completions.getD (clock.hour % code_completions.length) "") max_tokens

/-- `CompletionGenerator::get_general_completion`: selection by `simple_hash`
of the prompt. -/
def get_general_completion (prompt : String) (max_tokens : Nat) : String :=
  truncate_to_tokens
    (general_completions.getD (simple_hash prompt % general_completions.length) "") max_tokens

/-- Prompt extraction at the top of
`CompletionGenerator::generate_completion_text`: first array element (or the
empty string) for array prompts. -/
def prompt_of (p : PromptInput) : String :=
  match p with
  | .str s => s
  | .arr a => a.headD ""

/-- The branch chain of `CompletionGenerator::generate_completion_text`
(everything between prompt extraction and the echo step). -/
def completion_body (clock : Clock) (prompt : String) (max_tokens : Nat) : String :=
  if strContains (lowerStr prompt) "hello" then
    get_greeting_completion prompt max_tokens
  else if strContains (lowerStr prompt) "write" || strContains (lowerStr prompt) "create" then
    get_creative_completion clock max_tokens
  else if strContains (lowerStr prompt) "explain" || strContains (lowerStr prompt) "what" then
    get_explanatory_completion clock max_tokens
  else if strContains (lowerStr prompt) "code" || strContains (lowerStr prompt) "function" then
    get_code_completion clock max_tokens
  else
    get_general_completion prompt max_tokens

/-- `CompletionGenerator::generate_completion_text`: pick the canned
completion, then prepend the prompt verbatim when `echo` is set. -/
def generate_completion_text (clock : Clock) (request : CreateCompletionRequest) : String :=
  let prompt := prompt_of request.prompt
  let max_tokens := request.max_tokens.getD 16
  let completion := completion_body clock prompt max_tokens
  if request.echo.getD false then prompt ++ completion else completion

/-- Flattening of the optional stop sequences, as in
`CompletionGenerator::determine_finish_reason`. -/
def stop_list (stop : Option StopSequences) : List String :=
  match stop with
  | none => []
  | some (.str s) => [s]
  | some (.arr a) => a

/-- `CompletionGenerator::determine_finish_reason`: a stop sequence occurring
in the text forces `"stop"`; else `text.len() / 4 >= max_tokens` (default 16)
gives `"length"`; else `"stop"`. -/
def completions_finish_reason (request : CreateCompletionRequest) (text : String) : String :=
  if (stop_list request.stop).any (fun s => strContains text s) then "stop"
  else if request.max_tokens.getD 16 ≤ strLen text / 4 then "length"
  else "stop"

/-- One completion choice.  The optional logprobs annotation of the source is
omitted: it never feeds back into text, finish reason, or usage. -/
structure CompletionChoice where
  text : String
  index : Nat
  finish_reason : String
deriving DecidableEq

/-- Modelled from the spec: `CompletionChoice::new` lives in
`models/responses.rs`, which is absent from the sources; §3 describes a
ResponseChoice as text plus 0-based index plus finish reason, constructed
once. -/
def CompletionChoice.new (text : String) (index : Nat) (finish_reason : String) :
    CompletionChoice :=
  ⟨text, index, finish_reason⟩

/-- `CompletionGenerator::generate_choice` (logprobs attachment omitted, see
`CompletionChoice`). -/
def completions_generate_choice (clock : Clock) (request : CreateCompletionRequest)
    (index : Nat) : CompletionChoice :=
  let text := generate_completion_text clock request
  CompletionChoice.new text index (completions_finish_reason request text)

/-- Usage record shared by the completion and chat responses. -/
structure CompletionUsage where
  prompt_tokens : Nat
  completion_tokens : Nat
  total_tokens : Nat
deriving DecidableEq

/-- Modelled from the spec: `CompletionUsage::new` lives in
`models/responses.rs`, which is absent from the sources; §3/§4.6 require
`total = prompt + completion` enforced at construction and never
independently settable, and the repository tests assert exactly this sum. -/
def CompletionUsage.new (prompt completion : Nat) : CompletionUsage :=
  ⟨prompt, completion, prompt + completion⟩

/-- `CompletionGenerator::estimate_tokens`:
`(len / 4).max(1) + len % 3`. -/
def completions_estimate_tokens (text : String) : Nat :=
  Nat.max (strLen text / 4) 1 + strLen text % 3

/-- `CompletionGenerator::generate_usage`: prompt estimate over the joined
prompt text, completion estimate summed per choice. -/
def completions_generate_usage (request : CreateCompletionRequest)
    (choices : List CompletionChoice) : CompletionUsage :=
  let prompt_text :=
    match request.prompt with
    | .str s => s
    | .arr a => String.intercalate " " a
  CompletionUsage.new (completions_estimate_tokens prompt_text)
    ((choices.map (fun choice => completions_estimate_tokens choice.text)).sum)

/-- The choice list built by `CompletionGenerator::generate_response`
(`n` defaults to 1). -/
def completions_choices (clock : Clock) (request : CreateCompletionRequest) :
    List CompletionChoice :=
  (List.range (request.n.getD 1)).map (completions_generate_choice clock request)

/-- The usage record of the full `CompletionGenerator::generate_response`. -/
def completions_usage (clock : Clock) (request : CreateCompletionRequest) :
    CompletionUsage :=
  completions_generate_usage request (completions_choices clock request)

/-! ### Chat completion generator (`generators/chat_completions.rs`) -/

/-- `models/requests.rs::ChatCompletionRole`. -/
inductive ChatCompletionRole
  | system
  | user
  | assistant
  | tool
deriving DecidableEq

/-- The `Display` impl for `ChatCompletionRole` at the bottom of
`generators/chat_completions.rs`. -/
def roleString : ChatCompletionRole → String
  | .system => "system"
  | .user => "user"
  | .assistant => "assistant"
  | .tool => "tool"

/-- `models/requests.rs::ChatCompletionMessage`.  The `name`, `tool_calls` and
`tool_call_id` fields are never read by the generator and are omitted. -/
structure ChatCompletionMessage where
  role : ChatCompletionRole
  content : Option String
deriving DecidableEq

/-- `models/requests.rs::ChatCompletionFunction` (`description` and
`parameters` are never read by the generator and are omitted). -/
structure ChatCompletionFunction where
  name : String
deriving DecidableEq

/-- `models/requests.rs::ChatCompletionTool`. -/
structure ChatCompletionTool where
  tool_type : String
  function : ChatCompletionFunction
deriving DecidableEq

/-- `models/requests.rs::ChatCompletionToolChoice`; the generator only ever
tests presence of the option wrapping it. -/
inductive ChatCompletionToolChoice
  | noneLiteral (s : String)
  | autoLiteral (s : String)
  | requiredLiteral (s : String)
  | namedFunction (tool_type : String) (name : String)
deriving DecidableEq

/-- `models/requests.rs::CreateChatCompletionRequest`.  The `f32` sampling
fields, `stream` and `logit_bias` are never read by the generator and are
omitted. -/
structure CreateChatCompletionRequest where
  model : String
  messages : List ChatCompletionMessage
  n : Option Nat
  stop : Option StopSequences
  max_tokens : Option Nat
  user : Option String
  tools : Option (List ChatCompletionTool)
  tool_choice : Option ChatCompletionToolChoice
deriving DecidableEq

/-- One synthesized tool call of the response. -/
structure ChatToolCall where
  id : String
  tool_type : String
  name : String
  arguments : String
deriving DecidableEq

/-- Modelled from the spec: `ChatCompletionMessageToolCall::new` lives in
`models/responses.rs`, which is absent from the sources; §3 describes a
ToolInvocation as call identifier plus function name plus argument string
(tool type is the fixed literal `"function"`). -/
def ChatToolCall.new (id name arguments : String) : ChatToolCall :=
  ⟨id, "function", name, arguments⟩

/-- The assistant message of a chat choice. -/
structure ChatResponseMessage where
  role : String
  content : Option String
  tool_calls : Option (List ChatToolCall)
deriving DecidableEq

/-- Modelled from the spec: `ChatCompletionResponseMessage::assistant_message`
lives in the absent `models/responses.rs`; §3 makes a choice carry free text
XOR a tool invocation, and the tests assert the role is `"assistant"`. -/
def assistant_message (content : String) : ChatResponseMessage :=
  ⟨"assistant", some content, none⟩

/-- Modelled from the spec:
`ChatCompletionResponseMessage::assistant_message_with_tools` lives in the
absent `models/responses.rs`; tool-call choices carry no free text (§3). -/
def assistant_message_with_tools (calls : List ChatToolCall) : ChatResponseMessage :=
  ⟨"assistant", none, some calls⟩

/-- `ChatCompletionGenerator::generate_function_arguments`: ordered substring
match on the lowercased function name. -/
def generate_function_arguments (function_name : String) : String :=
  let name := lowerStr function_name
  if strContains name "weather" then "\x7b\"location\": \"San Francisco, CA\"\x7d"
  else if strContains name "search" then "\x7b\"query\": \"artificial intelligence\"\x7d"
  else if strContains name "calculate" then "\x7b\"expression\": \"2 + 2\"\x7d"
  else if strContains name "time" then "\x7b\"timezone\": \"UTC\"\x7d"
  else "\x7b\x7d"

/-- `ChatCompletionGenerator::generate_tool_call`, with the random UUID call
identifier made an explicit argument. -/
def generate_tool_call (call_id : String) (tool : ChatCompletionTool) : ChatToolCall :=
  ChatToolCall.new call_id tool.function.name
    (generate_function_arguments tool.function.name)

/-- The repeated pattern
`messages.iter().rev().find(User).and_then(content)` of the generator. -/
def last_user_content (messages : List ChatCompletionMessage) : Option String :=
  (messages.reverse.find? (fun msg =>
    match msg.role with
    | .user => true
    | _ => false)).bind (fun msg => msg.content)

/-- `ChatCompletionGenerator::should_call_function`: tool-trigger keywords in
the most recent user message. -/
def should_call_function (messages : List ChatCompletionMessage) : Bool :=
  match last_user_content messages with
  | some content =>
    let cl := lowerStr content
    strContains cl "weather" || strContains cl "search" ||
      strContains cl "calculate" || strContains cl "time"
  | none => false

/-- The pool inside `ChatCompletionGenerator::get_greeting_response`. -/
def greeting_responses : List String :=
  ["Hello! How can I assist you today?",
   "Hi there! What can I help you with?",
   "Hey! I\x27m here to help. What do you need?",
   "Hello! I\x27m ready to assist you with any questions or tasks you have."]

/-- `ChatCompletionGenerator::get_greeting_response`: selection by
`simple_hash("greeting")`, a constant. -/
def get_greeting_response : String :=
  greeting_responses.getD (simple_hash "greeting" % greeting_responses.length) ""

/-- `ChatCompletionGenerator::get_question_response` (the argument is the
already-lowercased content). -/
def get_question_response (content : String) : String :=
  if strContains content "what" then
    "That\x27s an interesting question. Let me provide you with a comprehensive answer based on my knowledge."
  else if strContains content "how" then
    "Here\x27s how you can approach this: I\x27ll break it down into clear, actionable steps."
  else if strContains content "why" then
    "There are several reasons for this. Let me explain the key factors involved."
  else
    "I\x27d be happy to help answer your question. Let me provide you with detailed information."

/-- `ChatCompletionGenerator::get_code_response`. -/
def get_code_response : String :=
  "I can help you with programming! Here\x27s a solution:\n\n```python\ndef example_function():\n    return \"Hello, World!\"\n```\n\nThis code demonstrates a basic function that returns a greeting."

/-- `ChatCompletionGenerator::get_math_response`. -/
def get_math_response : String :=
  "I can help with mathematical calculations. For example, if you\x27re looking to solve an equation or perform calculations, I can guide you through the process step by step."

/-- `ChatCompletionGenerator::get_creative_response`. -/
def get_creative_response : String :=
  "I\x27d be delighted to help with creative writing! Here\x27s a short example:\n\nOnce upon a time, in a world where artificial intelligence and human creativity merged seamlessly, there lived a helpful assistant who loved to tell stories..."

/-- `ChatCompletionGenerator::get_advanced_response`. -/
def get_advanced_response : String :=
  "As an advanced AI model, I can provide detailed, nuanced responses to complex questions. I\x27ll analyze your request from multiple angles and provide comprehensive insights."

/-- `ChatCompletionGenerator::get_general_response`. -/
def get_general_response : String :=
  "I\x27m here to help! Please feel free to ask me anything, and I\x27ll do my best to provide you with accurate and helpful information."

/-- `ChatCompletionGenerator::get_default_response`. -/
def get_default_response : String :=
  "Hello! I\x27m an AI assistant. How can I help you today?"

/-- `ChatCompletionGenerator::generate_contextual_response`: the branch chain
over the lowercased latest user content, falling through to a model-tier
default. -/
def generate_contextual_response (user_content model : String) : String :=
  let cl := lowerStr user_content
  if strContains cl "hello" || strContains cl "hi" || strContains cl "hey" then
    get_greeting_response
  else if strContains cl "?" || strContains cl "what" || strContains cl "how" ||
      strContains cl "why" then
    get_question_response cl
  else if strContains cl "code" || strContains cl "programming" ||
      strContains cl "function" then
    get_code_response
  else if strContains cl "calculate" || strContains cl "math" ||
      strContains cl "number" then
    get_math_response
  else if strContains cl "story" || strContains cl "creative" ||
      strContains cl "write" then
    get_creative_response
  else if strContains model "gpt-4" then
    get_advanced_response
  else
    get_general_response

/-- `ChatCompletionGenerator::generate_assistant_content`. -/
def generate_assistant_content (messages : List ChatCompletionMessage)
    (model : String) : String :=
  match last_user_content messages with
  | some content => generate_contextual_response content model
  | none => get_default_response

/-- `ChatCompletionGenerator::generate_content_message`. -/
def generate_content_message (request : CreateChatCompletionRequest) :
    ChatResponseMessage :=
  assistant_message (generate_assistant_content request.messages request.model)

/-- `ChatCompletionGenerator::generate_tool_call_message`: first declared tool
when the declaration list is present and non-empty, else fall back to a
content message. -/
def generate_tool_call_message (call_id : String)
    (request : CreateChatCompletionRequest) : ChatResponseMessage :=
  match request.tools with
  | some (tool :: _) => assistant_message_with_tools [generate_tool_call call_id tool]
  | _ => generate_content_message request

/-- `ChatCompletionGenerator::estimate_tokens_from_chars`:
`((chars as f64) / 4.0).ceil() as u32`, which is exactly `⌈chars / 4⌉`. -/
def estimate_tokens_from_chars (chars : Nat) : Nat :=
  (chars + 3) / 4

/-- `ChatCompletionGenerator::estimate_tokens`. -/
def chat_estimate_tokens (text : String) : Nat :=
  estimate_tokens_from_chars (strLen text)

/-- `ChatCompletionGenerator::determine_finish_reason`: `"tool_calls"`
whenever the message carries tool calls; else `"length"` only when
`max_tokens` is set, the content is present, and the content estimate reaches
it; else `"stop"`. -/
def chat_finish_reason (request : CreateChatCompletionRequest)
    (message : ChatResponseMessage) : String :=
  if message.tool_calls.isSome then "tool_calls"
  else
    match request.max_tokens, message.content with
    | some max_tokens, some content =>
      if max_tokens ≤ chat_estimate_tokens content then "length" else "stop"
    | _, _ => "stop"

/-- One chat completion choice. -/
structure ChatChoice where
  index : Nat
  message : ChatResponseMessage
  finish_reason : String
deriving DecidableEq

/-- Modelled from the spec: `ChatCompletionChoice::new` lives in the absent
`models/responses.rs`; §3 describes a choice as index plus message plus
finish reason, constructed once. -/
def ChatChoice.new (index : Nat) (message : ChatResponseMessage)
    (finish_reason : String) : ChatChoice :=
  ⟨index, message, finish_reason⟩

/-- `ChatCompletionGenerator::generate_choice`: the tool branch requires tool
declarations, a tool choice, and a trigger keyword in the latest user
message. -/
def chat_generate_choice (call_id : String) (request : CreateChatCompletionRequest)
    (index : Nat) : ChatChoice :=
  let should_generate_tools :=
    request.tools.isSome && request.tool_choice.isSome &&
      should_call_function request.messages
  let message :=
    if should_generate_tools then generate_tool_call_message call_id request
    else generate_content_message request
  ChatChoice.new index message (chat_finish_reason request message)

/-- Character charge of one request message in
`ChatCompletionGenerator::estimate_prompt_tokens`: content length plus role
string length plus 20 overhead. -/
def chat_message_chars (message : ChatCompletionMessage) : Nat :=
  (message.content.map strLen).getD 0 + strLen (roleString message.role) + 20

/-- `ChatCompletionGenerator::estimate_prompt_tokens`. -/
def estimate_prompt_tokens (messages : List ChatCompletionMessage) : Nat :=
  estimate_tokens_from_chars ((messages.map chat_message_chars).sum)

/-- Character charge of one generated choice in
`ChatCompletionGenerator::estimate_completion_tokens`: content length plus,
per tool call, argument and name lengths. -/
def chat_choice_chars (choice : ChatChoice) : Nat :=
  (choice.message.content.map strLen).getD 0 +
    ((choice.message.tool_calls.map (fun calls =>
      (calls.map (fun call => strLen call.arguments + strLen call.name)).sum)).getD 0)

/-- `ChatCompletionGenerator::estimate_completion_tokens`: one estimate over
the character total across all choices. -/
def estimate_completion_tokens (choices : List ChatChoice) : Nat :=
  estimate_tokens_from_chars ((choices.map chat_choice_chars).sum)

/-- `ChatCompletionGenerator::generate_usage`. -/
def chat_generate_usage (request : CreateChatCompletionRequest)
    (choices : List ChatChoice) : CompletionUsage :=
  CompletionUsage.new (estimate_prompt_tokens request.messages)
    (estimate_completion_tokens choices)

/-- The choice list built by `ChatCompletionGenerator::generate_response`. -/
def chat_choices (call_id : String) (request : CreateChatCompletionRequest) :
    List ChatChoice :=
  (List.range (request.n.getD 1)).map (chat_generate_choice call_id request)

/-- The usage record of the full `ChatCompletionGenerator::generate_response`. -/
def chat_usage (call_id : String) (request : CreateChatCompletionRequest) :
    CompletionUsage :=
  chat_generate_usage request (chat_choices call_id request)

/-! ### Classification categories

The classifier claims compare the branch taken by the code with the branch
order the specification describes, so the two branch chains are reified as
category-valued functions: `contextual_category` / `completion_category`
mirror the source chains, `claimed_category` follows the wording of the
specification. -/

/-- The response categories of the chat branch chain, one per `get_*`
helper, plus the tool branch of `generate_choice` and the missing-user-message
default. -/
inductive ChatCategory
  | toolCall
  | greeting
  | question
  | code
  | math
  | creative
  | advanced
  | general
  | defaultResponse
deriving DecidableEq

/-- The branch of `generate_contextual_response` taken for the given content
and model, mirroring the source chain. -/
def contextual_category (user_content model : String) : ChatCategory :=
  let cl := lowerStr user_content
  if strContains cl "hello" || strContains cl "hi" || strContains cl "hey" then
    .greeting
  else if strContains cl "?" || strContains cl "what" || strContains cl "how" ||
      strContains cl "why" then
    .question
  else if strContains cl "code" || strContains cl "programming" ||
      strContains cl "function" then
    .code
  else if strContains cl "calculate" || strContains cl "math" ||
      strContains cl "number" then
    .math
  else if strContains cl "story" || strContains cl "creative" ||
      strContains cl "write" then
    .creative
  else if strContains model "gpt-4" then
    .advanced
  else
    .general

/-- The branch a whole chat request takes in `generate_choice` /
`generate_assistant_content`: the tool branch when declarations, a tool
choice, and a trigger keyword are all present, else the contextual chain on
the latest user content, else the default response. -/
def chat_request_category (request : CreateChatCompletionRequest) : ChatCategory :=
  if request.tools.isSome && request.tool_choice.isSome &&
      should_call_function request.messages then
    .toolCall
  else
    match last_user_content request.messages with
    | some content => contextual_category content request.model
    | none => .defaultResponse

/-- The canned text belonging to a chat category (what each branch of
`generate_contextual_response` returns; the argument is the raw user content,
lowercased where the source lowercases). -/
def contextual_render (category : ChatCategory) (user_content : String) : String :=
  match category with
  | .greeting => get_greeting_response
  | .question => get_question_response (lowerStr user_content)
  | .code => get_code_response
  | .math => get_math_response
  | .creative => get_creative_response
  | .advanced => get_advanced_response
  | .general => get_general_response
  | .toolCall => ""
  | .defaultResponse => get_default_response

/-- Classifier as the claim words it: tool triggers (gated on tool
availability), then greeting, question markers, code, math, creative
keywords, first match wins, then the model-tier default. -/
def claimed_category (tools_available : Bool) (text model : String) : ChatCategory :=
  let t := lowerStr text
  if tools_available && (strContains t "weather" || strContains t "search" ||
      strContains t "calculate" || strContains t "time") then
    .toolCall
  else if strContains t "hello" || strContains t "hi" || strContains t "hey" then
    .greeting
  else if strContains t "?" || strContains t "what" || strContains t "how" ||
      strContains t "why" then
    .question
  else if strContains t "code" || strContains t "programming" ||
      strContains t "function" then
    .code
  else if strContains t "calculate" || strContains t "math" ||
      strContains t "number" then
    .math
  else if strContains t "story" || strContains t "creative" ||
      strContains t "write" then
    .creative
  else if strContains model "gpt-4" then
    .advanced
  else
    .general

/-- The response categories of the completion branch chain in
`CompletionGenerator::generate_completion_text`. -/
inductive CompletionCategory
  | greeting
  | creative
  | explanatory
  | code
  | general
deriving DecidableEq

/-- The branch of `generate_completion_text` taken for the given prompt,
mirroring the source chain. -/
def completion_category (prompt : String) : CompletionCategory :=
  if strContains (lowerStr prompt) "hello" then .greeting
  else if strContains (lowerStr prompt) "write" || strContains (lowerStr prompt) "create" then
    .creative
  else if strContains (lowerStr prompt) "explain" || strContains (lowerStr prompt) "what" then
    .explanatory
  else if strContains (lowerStr prompt) "code" || strContains (lowerStr prompt) "function" then
    .code
  else .general

/-- The canned completion belonging to a completion category. -/
def completion_render (category : CompletionCategory) (clock : Clock)
    (prompt : String) (max_tokens : Nat) : String :=
  match category with
  | .greeting => get_greeting_completion prompt max_tokens
  | .creative => get_creative_completion clock max_tokens
  | .explanatory => get_explanatory_completion clock max_tokens
  | .code => get_code_completion clock max_tokens
  | .general => get_general_completion prompt max_tokens

/-! ### Concrete fixtures used by counterexamples and witnesses -/

/-- A fixed clock value. -/
def clockA : Clock := ⟨0, 0, 0⟩

/-- A clock one second later than `clockA`. -/
def clockB : Clock := ⟨1, 0, 0⟩

/-- Completion request with a creative-category prompt (no echo, stop, or
explicit `n`). -/
def writeStoryRequest : CreateCompletionRequest :=
  ⟨"text-davinci-003", .str "Write a story", none, some 100, none, none, none, none,
    none, none⟩

/-- Completion request whose prompt is just `"hi"`. -/
def hiPromptRequest : CreateCompletionRequest :=
  ⟨"text-davinci-003", .str "hi", none, none, none, none, none, none, none, none⟩

/-- Completion request with `echo` enabled and prompt `"Hello there"`. -/
def echoRequest : CreateCompletionRequest :=
  ⟨"text-davinci-003", .str "Hello there", none, some 50, none, none, some true,
    none, none, none⟩

/-- Chat request with a math-category user message and two requested choices. -/
def chatUsageRequest : CreateChatCompletionRequest :=
  ⟨"gpt-3.5-turbo", [⟨.user, some "math"⟩], some 2, none, none, none, none, none⟩

/-- Completion request with a creative-category prompt and a stop sequence
that occurs inside the selected canned text. -/
def stopCompletionRequest : CreateCompletionRequest :=
  ⟨"text-davinci-003", .str "Write a story", none, some 100, none, none, none,
    some (.str "upon"), none, none⟩

/-- Chat request with a keyword-free user message, a stop sequence `" "`, and
`max_tokens` 1. -/
def chatStopRequest : CreateChatCompletionRequest :=
  ⟨"gpt-3.5-turbo", [⟨.user, some "xyz"⟩], none, some (.arr [" "]), some 1, none,
    none, none⟩

/-- Chat request with a weather question, one declared tool, and a tool
choice. -/
def weatherRequest : CreateChatCompletionRequest :=
  ⟨"gpt-4", [⟨.user, some "What is the weather in SF?"⟩], none, none, none, none,
    some [⟨"function", ⟨"get_weather"⟩⟩], some (.autoLiteral "auto")⟩

/-! ## Theorems -/

/-! ### Helper lemmas -/

/-- Folding the double-wrapped hash step equals folding the single-`mod`
step of the specification, for any accumulator. -/
theorem hash_fold_congr (l : List Nat) (a : Nat) :
    l.foldl (fun hash byte => (hash * 33 % u64Size + byte) % u64Size) a =
      l.foldl (fun hash byte => (hash * 33 + byte) % 2 ^ 64) a := by
  induction l generalizing a with
  | nil => rfl
  | cons b bs ih =>
    simp only [List.foldl_cons]
    rw [ih]
    congr 1
    have e64 : u64Size = 18446744073709551616 := by norm_num [u64Size]
    have e64b : (2 : ℕ) ^ 64 = 18446744073709551616 := by norm_num
    rw [e64, e64b]
    omega

/-- The nested wrapping of `lcg_step` collapses to the single `mod 2 ^ 31` of
the specification. -/
theorem lcg_step_eq (s i : Nat) :
    lcg_step s i = (s * 1103515245 + 12345 + i) % 2 ^ 31 := by
  have e64 : u64Size = 18446744073709551616 := by norm_num [u64Size]
  have e31 : u31Size = 2147483648 := by norm_num [u31Size]
  have e31b : (2 : ℕ) ^ 31 = 2147483648 := by norm_num
  unfold lcg_step
  rw [e64, e31, e31b]
  omega

/-! ### C1 -/

/-- C1: the embedding generator is deterministic and its output depends only
on the hash of the input text (and the dimension count): any two inputs with
equal `hash_string` values — in particular the same input twice, in the same
or in different processes — produce component-for-component identical
vectors; no clock or randomness enters the definition. -/
theorem embedding_depends_only_on_hash (t₁ t₂ : List Nat) (d : Nat)
    (h : hash_string t₁ = hash_string t₂) :
    generate_embedding_vector t₁ d = generate_embedding_vector t₂ d := by
  unfold generate_embedding_vector pre_vector
  rw [h]

/-- Witness for C1: the hypothesis holds for the bytes of `"hi"` against
themselves, giving equality of two calls on the same input. -/
theorem embedding_depends_only_on_hash_witness :
    hash_string [104, 105] = hash_string [104, 105]
    ∧ generate_embedding_vector [104, 105] 1536 =
        generate_embedding_vector [104, 105] 1536 :=
  ⟨rfl, embedding_depends_only_on_hash [104, 105] [104, 105] 1536 rfl⟩

/-! ### C2 -/

/-- C2: the integer core matches the specified arithmetic bit for bit: the
seed is the djb2 fold `seed = seed * 33 + byte (mod 2 ^ 64)` from 5381 over
the input bytes, the state sequence starts at the seed, and each step
satisfies `state = (state * 1103515245 + 12345 + i) mod 2 ^ 31` for the
0-based component index `i`. -/
theorem hash_and_lcg_match_spec (t : List Nat) (seed i : Nat) :
    hash_string t = t.foldl (fun hash byte => (hash * 33 + byte) % 2 ^ 64) 5381
    ∧ rng_state seed 0 = seed
    ∧ rng_state seed (i + 1) = (rng_state seed i * 1103515245 + 12345 + i) % 2 ^ 31 := by
  refine ⟨hash_fold_congr t 5381, rfl, ?_⟩
  show lcg_step (rng_state seed i) i = _
  exact lcg_step_eq (rng_state seed i) i

/-! ### C8 -/

/-- C8: without an explicit `dimensions` override the vector length follows
the fixed model table (unknown models get 1536), and an explicit override
wins regardless of model. -/
theorem dimension_table (input : EmbeddingInput) (ef u : Option String)
    (m : String) (d : Nat) :
    determine_dimensions ⟨m, input, ef, some d, u⟩ = d
    ∧ determine_dimensions ⟨"text-embedding-ada-002", input, ef, none, u⟩ = 1536
    ∧ determine_dimensions ⟨"text-embedding-3-small", input, ef, none, u⟩ = 1536
    ∧ determine_dimensions ⟨"text-embedding-3-large", input, ef, none, u⟩ = 3072
    ∧ determine_dimensions ⟨"text-similarity-ada-001", input, ef, none, u⟩ = 1024
    ∧ determine_dimensions ⟨"text-similarity-babbage-001", input, ef, none, u⟩ = 2048
    ∧ determine_dimensions ⟨"text-similarity-curie-001", input, ef, none, u⟩ = 4096
    ∧ determine_dimensions ⟨"text-similarity-davinci-001", input, ef, none, u⟩ = 12288
    ∧ (m ∉ (["text-embedding-ada-002", "text-embedding-3-small",
        "text-embedding-3-large", "text-similarity-ada-001",
        "text-similarity-babbage-001", "text-similarity-curie-001",
        "text-similarity-davinci-001"] : List String) →
      determine_dimensions ⟨m, input, ef, none, u⟩ = 1536) := by
  refine ⟨rfl, rfl, rfl, rfl, rfl, rfl, rfl, rfl, ?_⟩
  intro hm
  simp only [List.mem_cons, List.not_mem_nil, or_false, not_or] at hm
  obtain ⟨h1, h2, h3, h4, h5, h6, h7⟩ := hm
  simp [determine_dimensions, default_dimensions, h1, h2, h3, h4, h5, h6, h7]

/-- Witness for C8: an unknown model name defaults to 1536. -/
theorem dimension_table_witness :
    ("mystery-model" ∉ (["text-embedding-ada-002", "text-embedding-3-small",
        "text-embedding-3-large", "text-similarity-ada-001",
        "text-similarity-babbage-001", "text-similarity-curie-001",
        "text-similarity-davinci-001"] : List String))
    ∧ determine_dimensions ⟨"mystery-model", .str "x", none, none, none⟩ = 1536 :=
  ⟨by decide,
    (dimension_table (.str "x") none none "mystery-model" 0).2.2.2.2.2.2.2.2 (by decide)⟩

/-! ### Norm lemmas for C3 -/

/-- Unfolding lemma: sum of squares of a cons. -/
theorem sumSq_cons (x : ℝ) (v : List ℝ) : sumSq (x :: v) = x * x + sumSq v := by
  simp [sumSq]

/-- The sum of squares is nonnegative. -/
theorem sumSq_nonneg (v : List ℝ) : 0 ≤ sumSq v := by
  induction v with
  | nil => simp [sumSq]
  | cons x xs ih =>
    rw [sumSq_cons]
    have hx := mul_self_nonneg x
    linarith

/-- Every element squared is bounded by the sum of squares. -/
theorem sq_le_sumSq {v : List ℝ} {x : ℝ} (hx : x ∈ v) : x * x ≤ sumSq v := by
  induction v with
  | nil => cases hx
  | cons y ys ih =>
    rw [sumSq_cons]
    rcases List.mem_cons.mp hx with h | h
    · subst h
      have := sumSq_nonneg ys
      linarith
    · have := ih h
      have hy := mul_self_nonneg y
      linarith

/-- The magnitude is nonnegative. -/
theorem magnitude_nonneg (v : List ℝ) : 0 ≤ magnitude v :=
  Real.sqrt_nonneg _

/-- A non-positive magnitude forces the sum of squares to vanish. -/
theorem sumSq_eq_zero_of_magnitude_nonpos {v : List ℝ} (h : magnitude v ≤ 0) :
    sumSq v = 0 := by
  have h0 : magnitude v = 0 := le_antisymm h (magnitude_nonneg v)
  exact (Real.sqrt_eq_zero (sumSq_nonneg v)).mp h0

/-- Every element is bounded in absolute value by the magnitude. -/
theorem abs_le_magnitude {v : List ℝ} {x : ℝ} (hx : x ∈ v) : |x| ≤ magnitude v := by
  have h1 : x * x ≤ sumSq v := sq_le_sumSq hx
  have h2 : |x| = Real.sqrt (x * x) := (Real.sqrt_mul_self_eq_abs x).symm
  rw [h2]
  exact Real.sqrt_le_sqrt h1

/-- Every component of a normalised vector lies in `[-1, 1]`. -/
theorem normalize_mem_bounds {v : List ℝ} {x : ℝ} (hx : x ∈ normalize_vector v) :
    -1 ≤ x ∧ x ≤ 1 := by
  unfold normalize_vector at hx
  by_cases hpos : 0 < magnitude v
  · rw [if_pos hpos] at hx
    rcases List.mem_map.mp hx with ⟨y, hy, rfl⟩
    have habs : |y| ≤ magnitude v := abs_le_magnitude hy
    have h1 : |y / magnitude v| ≤ 1 := by
      rw [abs_div, abs_of_pos hpos]
      exact (div_le_one hpos).mpr habs
    exact abs_le.mp h1
  · rw [if_neg hpos] at hx
    have hS : sumSq v = 0 := sumSq_eq_zero_of_magnitude_nonpos (not_lt.mp hpos)
    have hx2 : x * x ≤ 0 := hS ▸ sq_le_sumSq hx
    have hx0 : x = 0 := mul_self_eq_zero.mp (le_antisymm hx2 (mul_self_nonneg x))
    rw [hx0]
    norm_num

/-- Zero magnitude skips the division: the vector is returned unchanged. -/
theorem normalize_of_zero_magnitude {v : List ℝ} (h : magnitude v = 0) :
    normalize_vector v = v := by
  unfold normalize_vector
  rw [if_neg]
  rw [h]
  exact lt_irrefl 0

/-- Dividing every component divides the sum of squares by the square. -/
theorem sumSq_map_div (v : List ℝ) (c : ℝ) :
    sumSq (v.map (fun x => x / c)) = sumSq v / (c * c) := by
  induction v with
  | nil => simp [sumSq]
  | cons y ys ih =>
    simp only [List.map_cons, sumSq_cons, ih, div_mul_div_comm, add_div]

/-- A vector of nonzero sum of squares normalises to magnitude exactly 1. -/
theorem magnitude_normalize {v : List ℝ} (h : sumSq v ≠ 0) :
    magnitude (normalize_vector v) = 1 := by
  have hS : 0 ≤ sumSq v := sumSq_nonneg v
  have hSpos : 0 < sumSq v := lt_of_le_of_ne hS (Ne.symm h)
  have hm : 0 < magnitude v := Real.sqrt_pos.mpr hSpos
  unfold normalize_vector
  rw [if_pos hm]
  unfold magnitude
  rw [sumSq_map_div]
  have hmm : magnitude v * magnitude v = sumSq v := Real.mul_self_sqrt hS
  unfold magnitude at hmm
  rw [hmm, div_self h, Real.sqrt_one]

/-! ### C3 -/

/-- C3: for every input and positive dimension count, every component of the
generated embedding lies in `[-1, 1]`; when the pre-normalisation magnitude is
exactly zero the division is skipped and the vector is returned unnormalised;
otherwise the Euclidean norm of the result is within `1e-9` of 1 (indeed
exactly 1 in the idealised real arithmetic). -/
theorem embedding_unit_norm (t : List Nat) (d : Nat) (hd : 0 < d) :
    (∀ x ∈ generate_embedding_vector t d, -1 ≤ x ∧ x ≤ 1)
    ∧ (magnitude (pre_vector t d) = 0 →
        generate_embedding_vector t d = pre_vector t d)
    ∧ (magnitude (pre_vector t d) ≠ 0 →
        |magnitude (generate_embedding_vector t d) - 1| ≤ 1 / 1000000000) := by
  refine ⟨fun x hx => normalize_mem_bounds hx,
    fun h => normalize_of_zero_magnitude h, fun h => ?_⟩
  have hS : sumSq (pre_vector t d) ≠ 0 := by
    intro h0
    apply h
    unfold magnitude
    rw [h0, Real.sqrt_zero]
  have h1 : magnitude (generate_embedding_vector t d) = 1 :=
    magnitude_normalize hS
  rw [h1]
  norm_num

/-- Witness for C3 at the bytes of `"hello"` and dimension 1536. -/
theorem embedding_unit_norm_witness :
    0 < 1536
    ∧ ((∀ x ∈ generate_embedding_vector [104, 101, 108, 108, 111] 1536,
          -1 ≤ x ∧ x ≤ 1)
      ∧ (magnitude (pre_vector [104, 101, 108, 108, 111] 1536) = 0 →
          generate_embedding_vector [104, 101, 108, 108, 111] 1536 =
            pre_vector [104, 101, 108, 108, 111] 1536)
      ∧ (magnitude (pre_vector [104, 101, 108, 108, 111] 1536) ≠ 0 →
          |magnitude (generate_embedding_vector [104, 101, 108, 108, 111] 1536) - 1| ≤
            1 / 1000000000)) :=
  ⟨by norm_num, embedding_unit_norm [104, 101, 108, 108, 111] 1536 (by norm_num)⟩

/-! ### C9 -/

set_option maxRecDepth 4000 in
/-- C9: the creative canned-text picker is wall-clock-derived — the very same
completion request, prompt `"Write a story"`, yields different choice texts
at unix timestamps 0 and 1, contradicting the documented guarantee that
responses are deterministic in the prompt content. -/
theorem creative_selection_is_wall_clock_derived :
    generate_completion_text clockA writeStoryRequest ≠
      generate_completion_text clockB writeStoryRequest := by decide

/-! ### C10 -/

/-- C10: with `echo` set, the original prompt is prepended verbatim to the
canned completion — which itself is truncated against the `max_tokens` budget
untouched by the prompt — so the returned text has the prompt as a prefix. -/
theorem echo_prepends_prompt (clock : Clock) (request : CreateCompletionRequest)
    (h : request.echo = some true) :
    generate_completion_text clock request =
      prompt_of request.prompt ++
        completion_body clock (prompt_of request.prompt) (request.max_tokens.getD 16)
    ∧ ∃ rest, generate_completion_text clock request =
        prompt_of request.prompt ++ rest := by
  have hb : request.echo.getD false = true := by rw [h]; rfl
  constructor
  · simp [generate_completion_text, hb]
  · exact ⟨completion_body clock (prompt_of request.prompt) (request.max_tokens.getD 16),
      by simp [generate_completion_text, hb]⟩

/-- Witness for C10: prompt `"Hello there"` with `echo = true`. -/
theorem echo_prepends_prompt_witness :
    echoRequest.echo = some true
    ∧ (generate_completion_text clockA echoRequest =
        prompt_of echoRequest.prompt ++
          completion_body clockA (prompt_of echoRequest.prompt)
            (echoRequest.max_tokens.getD 16)
      ∧ ∃ rest, generate_completion_text clockA echoRequest =
          prompt_of echoRequest.prompt ++ rest) :=
  ⟨rfl, echo_prepends_prompt clockA echoRequest rfl⟩

/-! ### Classifier lemmas for C6 -/

/-- The chat branch chain renders exactly the canned text of its category. -/
theorem contextual_response_renders_category (content model : String) :
    generate_contextual_response content model =
      contextual_render (contextual_category content model) content := by
  simp only [generate_contextual_response, contextual_category, contextual_render]
  split_ifs <;> rfl

/-- Below the tool tier, the chat chain agrees with the claimed priority
order. -/
theorem contextual_eq_claimed (content model : String) :
    contextual_category content model = claimed_category false content model := by
  simp [claimed_category, contextual_category]

/-- At request level, with a latest user message present, the chat branch
equals the claimed classifier gated on tool availability. -/
theorem chat_category_of_user (request : CreateChatCompletionRequest)
    (content : String)
    (h : last_user_content request.messages = some content) :
    chat_request_category request =
      claimed_category (request.tools.isSome && request.tool_choice.isSome)
        content request.model := by
  simp only [chat_request_category, should_call_function, h, claimed_category,
    contextual_category]

/-- The completion branch chain renders exactly the canned text of its
category. -/
theorem completion_body_renders_category (clock : Clock) (prompt : String)
    (max_tokens : Nat) :
    completion_body clock prompt max_tokens =
      completion_render (completion_category prompt) clock prompt max_tokens := by
  simp only [completion_body, completion_category, completion_render]
  split_ifs <;> rfl

/-! ### C6 -/

set_option maxRecDepth 4000 in
/-- C6 counterexample: the claim applies one keyword ladder to both paths, so
on the completion path the prompt `"hi"` would be a greeting; the code
classifies `"hi"` into the general bucket (its completion ladder only tests
`hello`, `write`/`create`, `explain`/`what`, `code`/`function`), and the
rendered output is the hash-selected general completion, not the greeting
selection. -/
theorem classifier_counterexample :
    claimed_category false "hi" "text-davinci-003" = ChatCategory.greeting
    ∧ completion_category "hi" = CompletionCategory.general
    ∧ generate_completion_text clockA hiPromptRequest = get_general_completion "hi" 16
    ∧ get_general_completion "hi" 16 ≠ get_greeting_completion "hi" 16 := by decide

/-- C6 (amended): the chat path tests, case-insensitively and first match
wins, tool triggers (weather, search, calculate, time — only with tool
declarations and a tool choice present), then greeting (hello, hi, hey),
question (`?`, what, how, why), code (code, programming, function), math
(calculate, math, number), creative (story, creative, write) on the most
recent user-authored text, falling through to a model-tier default (advanced
for gpt-4-class models, general otherwise); the completion path instead tests
hello → write/create → explain/what → code/function and falls through to a
hash-selected general bucket; each branch renders the canned text of its
category. -/
theorem classifier_priority :
    (∀ content model, generate_contextual_response content model =
        contextual_render (contextual_category content model) content)
    ∧ (∀ content model, contextual_category content model =
        claimed_category false content model)
    ∧ (∀ request content, last_user_content request.messages = some content →
        chat_request_category request =
          claimed_category (request.tools.isSome && request.tool_choice.isSome)
            content request.model)
    ∧ (∀ clock prompt max_tokens, completion_body clock prompt max_tokens =
        completion_render (completion_category prompt) clock prompt max_tokens) :=
  ⟨contextual_response_renders_category, contextual_eq_claimed,
    fun request content h => chat_category_of_user request content h,
    completion_body_renders_category⟩

set_option maxRecDepth 4000 in
/-- Witness for C6 at the weather request, whose latest user message carries a
tool-trigger keyword. -/
theorem classifier_priority_witness :
    last_user_content weatherRequest.messages = some "What is the weather in SF?"
    ∧ chat_request_category weatherRequest =
        claimed_category
          (weatherRequest.tools.isSome && weatherRequest.tool_choice.isSome)
          "What is the weather in SF?" weatherRequest.model :=
  ⟨by decide,
    classifier_priority.2.2.1 weatherRequest "What is the weather in SF?" (by decide)⟩

/-! ### C7 -/

/-- C7 counterexample: on the chat path the estimator is `⌈len/4⌉` with no
remainder variation — at `"hello"` (length 5) it returns 2, not the claimed
`max(1, 5/4) + 5 % 3 = 3`. -/
theorem token_estimator_counterexample :
    chat_estimate_tokens "hello" = 2
    ∧ Nat.max (strLen "hello" / 4) 1 + strLen "hello" % 3 = 3
    ∧ chat_estimate_tokens "hello" ≠
        Nat.max (strLen "hello" / 4) 1 + strLen "hello" % 3 := by decide

/-- C7 (amended): the completion-path estimator is
`max(1, len/4) + len % 3`; the chat-path estimator is the plain ceiling
`⌈len/4⌉`, with no baseline floor (it gives 0 on empty text) and no remainder
variation; the embedding-path estimator is `⌊(max(1, len/4) + word_count) * 0.8⌋`. -/
theorem token_estimator_formulas :
    (∀ text, completions_estimate_tokens text =
        Nat.max (strLen text / 4) 1 + strLen text % 3)
    ∧ (∀ text, chat_estimate_tokens text = (strLen text + 3) / 4)
    ∧ (∀ text, embedding_estimate_tokens text =
        (Nat.max (strLen text / 4) 1 + word_count text) * 8 / 10)
    ∧ chat_estimate_tokens "" = 0
    ∧ (∀ text, 1 ≤ completions_estimate_tokens text) := by
  refine ⟨fun text => rfl, fun text => rfl, fun text => rfl, rfl, fun text => ?_⟩
  unfold completions_estimate_tokens
  have h : 1 ≤ Nat.max (strLen text / 4) 1 := le_max_right _ _
  omega

/-! ### Finish-reason lemmas for C5 -/

/-- Case analysis of the completion-path finish reason: stop-sequence hit
forces `"stop"`, otherwise the length test decides, and the result is always
one of `"stop"` and `"length"`. -/
theorem completions_finish_cases (request : CreateCompletionRequest) (text : String) :
    ((stop_list request.stop).any (fun s => strContains text s) = true →
      completions_finish_reason request text = "stop")
    ∧ ((stop_list request.stop).any (fun s => strContains text s) = false →
        (request.max_tokens.getD 16 ≤ strLen text / 4 →
          completions_finish_reason request text = "length")
        ∧ (strLen text / 4 < request.max_tokens.getD 16 →
          completions_finish_reason request text = "stop"))
    ∧ (completions_finish_reason request text = "stop" ∨
        completions_finish_reason request text = "length") := by
  refine ⟨?_, ?_, ?_⟩
  · intro hb
    simp [completions_finish_reason, hb]
  · intro hb
    constructor
    · intro hlen
      simp [completions_finish_reason, hb, hlen]
    · intro hlt
      simp [completions_finish_reason, hb, Nat.not_le.mpr hlt]
  · unfold completions_finish_reason
    split_ifs <;> simp

/-- Case analysis of the chat-path finish reason: `"tool_calls"` exactly when
the message carries tool calls; without tool calls the stop sequences are
never consulted and the result is `"length"` precisely when `max_tokens` and
content are both present and the content estimate reaches the cap, else
`"stop"`. -/
theorem chat_finish_cases (request : CreateChatCompletionRequest)
    (message : ChatResponseMessage) :
    (message.tool_calls.isSome = true ↔
      chat_finish_reason request message = "tool_calls")
    ∧ (message.tool_calls = none →
        chat_finish_reason request message = "stop" ∨
        chat_finish_reason request message = "length")
    ∧ (∀ max_tokens content, message.tool_calls = none →
        request.max_tokens = some max_tokens → message.content = some content →
        (chat_finish_reason request message = "length" ↔
          max_tokens ≤ chat_estimate_tokens content))
    ∧ (message.tool_calls = none →
        request.max_tokens = none ∨ message.content = none →
        chat_finish_reason request message = "stop") := by
  cases htc : message.tool_calls with
  | some calls =>
    refine ⟨?_, ?_, ?_, ?_⟩
    · simp [chat_finish_reason, htc]
    · intro h; simp [htc] at h
    · intro _ _ h; simp [htc] at h
    · intro h; simp [htc] at h
  | none =>
    refine ⟨?_, ?_, ?_, ?_⟩
    · rcases hmt : request.max_tokens with _ | mt <;>
        rcases hc : message.content with _ | c <;>
          simp [chat_finish_reason, htc, hmt, hc] <;> split_ifs <;> simp
    · intro _
      rcases hmt : request.max_tokens with _ | mt <;>
        rcases hc : message.content with _ | c <;>
          simp [chat_finish_reason, htc, hmt, hc]
      omega
    · intro max_tokens content _ hmt hc
      simp only [chat_finish_reason, htc, hmt, hc, Option.isSome_none,
        Bool.false_eq_true, if_false]
      split_ifs with hle <;> simp [hle]
    · intro _ hor
      rcases hor with hmt | hc
      · simp [chat_finish_reason, htc, hmt]
      · simp [chat_finish_reason, htc, hc]

/-! ### C5 -/

set_option maxRecDepth 8000 in
/-- C5 counterexample: a chat request whose stop sequence `" "` occurs in the
rendered content should, per the claim, finish with `"stop"`; the generated
choice carries no tool invocation, the stop sequence is a substring of its
content, yet the code returns `"length"` because chat never consults stop
sequences. -/
theorem finish_reason_counterexample :
    (chat_generate_choice "call_y" chatStopRequest 0).message.tool_calls = none
    ∧ stop_list chatStopRequest.stop = [" "]
    ∧ strContains
        ((chat_generate_choice "call_y" chatStopRequest 0).message.content.getD "")
        " " = true
    ∧ (chat_generate_choice "call_y" chatStopRequest 0).finish_reason = "length"
    ∧ (chat_generate_choice "call_y" chatStopRequest 0).finish_reason ≠ "stop" := by
  decide

/-- C5 (amended): on the completion path a configured stop sequence occurring
in the rendered text forces `"stop"`, else the estimate `len/4` reaching the
requested cap (default 16) gives `"length"`, else `"stop"`; on the chat path
`"tool_calls"` appears if and only if the choice carries a tool invocation,
and otherwise stop sequences are ignored: the reason is `"length"` exactly
when `max_tokens` is set, content is present, and `⌈len/4⌉` reaches the cap,
else `"stop"`; so every finish reason is one of the three values. -/
theorem finish_reason_policy :
    (∀ request text,
      ((stop_list request.stop).any (fun s => strContains text s) = true →
        completions_finish_reason request text = "stop")
      ∧ ((stop_list request.stop).any (fun s => strContains text s) = false →
          (request.max_tokens.getD 16 ≤ strLen text / 4 →
            completions_finish_reason request text = "length")
          ∧ (strLen text / 4 < request.max_tokens.getD 16 →
            completions_finish_reason request text = "stop"))
      ∧ (completions_finish_reason request text = "stop" ∨
          completions_finish_reason request text = "length"))
    ∧ (∀ request message,
      (message.tool_calls.isSome = true ↔
        chat_finish_reason request message = "tool_calls")
      ∧ (message.tool_calls = none →
          chat_finish_reason request message = "stop" ∨
          chat_finish_reason request message = "length")
      ∧ (∀ max_tokens content, message.tool_calls = none →
          request.max_tokens = some max_tokens → message.content = some content →
          (chat_finish_reason request message = "length" ↔
            max_tokens ≤ chat_estimate_tokens content))
      ∧ (message.tool_calls = none →
          request.max_tokens = none ∨ message.content = none →
          chat_finish_reason request message = "stop"))
    ∧ (∀ call_id request index,
        ((chat_generate_choice call_id request index).message.tool_calls.isSome = true ↔
          (chat_generate_choice call_id request index).finish_reason = "tool_calls")) :=
  ⟨completions_finish_cases, chat_finish_cases,
    fun call_id request index =>
      (chat_finish_cases request (chat_generate_choice call_id request index).message).1⟩

set_option maxRecDepth 8000 in
/-- Witness for C5: a completion request whose stop sequence `"upon"` occurs
in the text finishes with `"stop"`. -/
theorem finish_reason_policy_witness :
    (stop_list stopCompletionRequest.stop).any
        (fun s => strContains " Once upon a time" s) = true
    ∧ completions_finish_reason stopCompletionRequest " Once upon a time" = "stop" :=
  ⟨by decide,
    (finish_reason_policy.1 stopCompletionRequest " Once upon a time").1 (by decide)⟩

/-! ### Usage lemmas for C4 -/

/-- The completion-path estimator never returns 0. -/
theorem completions_estimate_ge_one (text : String) :
    1 ≤ completions_estimate_tokens text := by
  unfold completions_estimate_tokens
  have h : 1 ≤ Nat.max (strLen text / 4) 1 := le_max_right _ _
  omega

/-- A non-empty choice list contributes at least one completion token. -/
theorem sum_estimates_ge_one (l : List CompletionChoice) (h : l ≠ []) :
    1 ≤ (l.map (fun choice => completions_estimate_tokens choice.text)).sum := by
  cases l with
  | nil => exact absurd rfl h
  | cons c cs =>
    simp only [List.map_cons, List.sum_cons]
    have := completions_estimate_ge_one c.text
    omega

/-- Mapping over a non-empty range gives a non-empty list. -/
theorem range_map_ne_nil {α : Type} (f : Nat → α) (n : Nat) (h : n ≠ 0) :
    (List.range n).map f ≠ [] := by
  intro hc
  apply h
  have := congrArg List.length hc
  simpa using this

/-- Every request message is charged at least its 20-character overhead. -/
theorem chat_message_chars_ge (m : ChatCompletionMessage) :
    20 ≤ chat_message_chars m := by
  unfold chat_message_chars
  omega

/-- A non-empty message list has a positive character total. -/
theorem messages_chars_ge_one (msgs : List ChatCompletionMessage) (h : msgs ≠ []) :
    1 ≤ (msgs.map chat_message_chars).sum := by
  cases msgs with
  | nil => exact absurd rfl h
  | cons m ms =>
    simp only [List.map_cons, List.sum_cons]
    have := chat_message_chars_ge m
    omega

/-- The ceiling estimator is positive on positive character counts. -/
theorem estimate_from_chars_ge_one (n : Nat) (h : 1 ≤ n) :
    1 ≤ estimate_tokens_from_chars n := by
  unfold estimate_tokens_from_chars
  omega

/-! ### C4 -/

set_option maxRecDepth 8000 in
/-- C4 counterexample: for the chat request with latest user message
`"math"` and `n = 2`, the code computes one ceiling estimate over the total
character count (85 tokens), while the sum of the per-choice estimates is 86
— so chat `completion_tokens` is not the sum of per-choice estimates. -/
theorem usage_counterexample :
    (chat_usage "call_x" chatUsageRequest).completion_tokens = 85
    ∧ ((chat_choices "call_x" chatUsageRequest).map (fun choice =>
        estimate_tokens_from_chars (chat_choice_chars choice))).sum = 86
    ∧ (chat_usage "call_x" chatUsageRequest).completion_tokens ≠
        ((chat_choices "call_x" chatUsageRequest).map (fun choice =>
          estimate_tokens_from_chars (chat_choice_chars choice))).sum := by
  decide

/-- C4 (amended): the usage record always satisfies
`total = prompt + completion` by construction (so the total is never settable
independently); on the completion path `completion_tokens` is the sum of the
per-choice estimates, the prompt estimate is always at least 1, and at least
one requested choice makes the completion estimate at least 1; on the chat
path `completion_tokens` is a single ceiling estimate over the total
character count across all choices (not the per-choice sum), the prompt
estimate is at least 1 whenever a message is present, and the completion
estimate is at least 1 whenever the choices carry any characters. -/
theorem usage_invariants :
    (∀ p c, (CompletionUsage.new p c).total_tokens =
      (CompletionUsage.new p c).prompt_tokens +
        (CompletionUsage.new p c).completion_tokens)
    ∧ (∀ clock request, (completions_usage clock request).completion_tokens =
        ((completions_choices clock request).map (fun choice =>
          completions_estimate_tokens choice.text)).sum)
    ∧ (∀ clock request, 1 ≤ (completions_usage clock request).prompt_tokens)
    ∧ (∀ clock request, request.n.getD 1 ≠ 0 →
        1 ≤ (completions_usage clock request).completion_tokens)
    ∧ (∀ call_id request, (chat_usage call_id request).completion_tokens =
        estimate_tokens_from_chars
          (((chat_choices call_id request).map chat_choice_chars).sum))
    ∧ (∀ call_id request, request.messages ≠ [] →
        1 ≤ (chat_usage call_id request).prompt_tokens)
    ∧ (∀ call_id request,
        1 ≤ ((chat_choices call_id request).map chat_choice_chars).sum →
        1 ≤ (chat_usage call_id request).completion_tokens) := by
  refine ⟨fun p c => rfl, fun clock request => rfl, ?_, ?_, fun call_id request => rfl,
    ?_, ?_⟩
  · intro clock request
    exact completions_estimate_ge_one _
  · intro clock request h
    exact sum_estimates_ge_one _ (range_map_ne_nil _ _ h)
  · intro call_id request h
    exact estimate_from_chars_ge_one _ (messages_chars_ge_one _ h)
  · intro call_id request h
    exact estimate_from_chars_ge_one _ h

/-- Witness for C4: the write-story completion request asks for a (default)
single choice, so its completion estimate is at least 1. -/
theorem usage_invariants_witness :
    writeStoryRequest.n.getD 1 ≠ 0
    ∧ 1 ≤ (completions_usage clockA writeStoryRequest).completion_tokens :=
  ⟨by decide, usage_invariants.2.2.2.1 clockA writeStoryRequest (by decide)⟩

end OpenAIMock
